import Mathlib

/-!
# Verification of the `aka` daemon-vs-fallback benchmark harness

Shallow embedding of `src/scripts/benchmark-daemon-vs-fallback.py` (the only
source file of the repository) and proofs settling the frozen claims about it.

Modelling conventions:
* Python floats (wall-clock seconds, parsed millisecond values) are modelled
  as `ℚ`; Python ints as `Nat`/`Int`.
* Each `subprocess.run` call is an interaction with the outside world.  Its
  observable outcome is an `ExecOutcome` value: the child completed with an
  exit code, output and a measured elapsed time, or `subprocess.run` raised
  `TimeoutExpired` (with the measured elapsed time), or it raised
  `FileNotFoundError` because the executable could not be spawned.
  A whole run consumes a list of such outcomes (an oracle stream) in call
  order.
* Text manipulation is modelled structurally on `List Char` so that concrete
  inputs evaluate inside the kernel; the helper functions mirror the Python
  string methods used by the script (`split`, `strip`, `lower`, `endswith`,
  `replace`, `isdigit`, substring containment via `in`).
-/

/-! ## Text utilities (models of the Python string methods used) -/

/-- Split a character list at every separator character, keeping empty
pieces, like Python's `str.split('\n')`. -/
def splitOnP (p : Char → Bool) : List Char → List (List Char)
  | [] => [[]]
  | c :: rest =>
    let r := splitOnP p rest
    if p c then [] :: r
    else
      match r with
      | [] => [[c]]
      | h :: t => (c :: h) :: t

/-- Embedding of `startsWithL hay pat`: `pat` is a prefix of `hay`. -/
def startsWithL : List Char → List Char → Bool
  | _, [] => true
  | [], _ :: _ => false
  | a :: s, b :: t => a = b && startsWithL s t

/-- Embedding of `containsSub hay pat`: `pat` occurs contiguously in `hay`
(Python's `pat in hay`). -/
def containsSub (hay needle : List Char) : Bool :=
  match hay with
  | [] => startsWithL [] needle
  | _ :: t => startsWithL hay needle || containsSub t needle

/-- Python `needle in hay` on strings. -/
def strContains (hay needle : String) : Bool :=
  containsSub hay.data needle.data

/-- Python `hay.split('\n')`. -/
def strSplitNl (s : String) : List String :=
  (splitOnP (fun c => c = '\n') s.data).map String.mk

/-- Python `s.strip()` (whitespace from both ends). -/
def pyStrip (s : String) : String :=
  String.mk (((s.data.dropWhile Char.isWhitespace).reverse.dropWhile
      Char.isWhitespace).reverse)

/-- Python `s.split()`: split on whitespace runs, dropping empty tokens. -/
def splitWsTokens (s : String) : List String :=
  ((splitOnP Char.isWhitespace s.data).filter (fun t => t ≠ [])).map String.mk

/-- ASCII lower-casing of one character (model of `str.lower` restricted to
the ASCII range, which covers every string the script manipulates). -/
def lcChar (c : Char) : Char :=
  if 65 ≤ c.toNat ∧ c.toNat ≤ 90 then Char.ofNat (c.toNat + 32) else c

/-- Python `s.lower()`. -/
def strLower (s : String) : String :=
  String.mk (s.data.map lcChar)

/-- Python `s.endswith(suf)`. -/
def strEndsWith (s suf : String) : Bool :=
  startsWithL s.data.reverse suf.data.reverse

/-- Left-to-right, non-overlapping removal of every occurrence of `pat`,
fuel-indexed to stay structurally recursive.  With `fuel ≥ length of the
list` this is Python's `s.replace(pat, '')`. -/
def removeAllAux (pat : List Char) : Nat → List Char → List Char
  | _, [] => []
  | 0, l => l
  | fuel + 1, c :: t =>
    if pat ≠ [] ∧ startsWithL (c :: t) pat then
      removeAllAux pat fuel ((c :: t).drop pat.length)
    else c :: removeAllAux pat fuel t

/-- Python `s.replace(pat, '')`. -/
def strRemoveAll (s pat : String) : String :=
  String.mk (removeAllAux pat.data s.data.length s.data)

/-- Numeric value of a digit string (most significant digit first). -/
def digitsVal (ds : List Char) : Nat :=
  ds.foldl (fun a c => a * 10 + (c.toNat - 48)) 0

/-- Python `part.isdigit()`: non-empty and all digits. -/
def pyIsDigit (s : String) : Bool :=
  s.data ≠ [] && s.data.all Char.isDigit

/-- Model of Python `float(s)` restricted to the decimal forms the script's
diagnostics can produce: optional surrounding whitespace, optional sign,
digits with at most one decimal point (`"12"`, `"12.5"`, `".5"`, `"7."`).
Exponent, infinity and nan forms are not modelled; on any other input the
Python call raises `ValueError`, modelled as `none`. -/
def pyFloat? (s : String) : Option ℚ :=
  let t := ((s.data.dropWhile Char.isWhitespace).reverse.dropWhile
      Char.isWhitespace).reverse
  let signed : ℚ × List Char :=
    match t with
    | '-' :: r => (-1, r)
    | '+' :: r => (1, r)
    | r => (1, r)
  let ip := signed.2.takeWhile (fun c => c ≠ '.')
  let rest := signed.2.dropWhile (fun c => c ≠ '.')
  match rest with
  | [] =>
    if ip ≠ [] ∧ ip.all Char.isDigit then some (signed.1 * digitsVal ip) else none
  | _ :: fp =>
    if (ip ++ fp) ≠ [] ∧ ip.all Char.isDigit ∧ fp.all Char.isDigit then
      some (signed.1 * ((digitsVal ip : ℚ) + (digitsVal fp : ℚ) / 10 ^ fp.length))
    else none

/-! ## Diagnostics parsing (`_parse_timing_summary`, lines 175–213) -/

/-- The dictionary built by `_parse_timing_summary`; each field is one of the
keys the Python code may insert (`none` = key absent). -/
structure TimingSummary where
  daemon_avg_ms : Option ℚ := none
  direct_avg_ms : Option ℚ := none
  daemon_samples : Option Nat := none
  direct_samples : Option Nat := none
deriving DecidableEq, Repr

/-- The empty dictionary `{}`. -/
def emptySummary : TimingSummary := {}

/-- Scan of the `Daemon mode:`/`Direct mode:` branches: first token with
index `> 0` that ends in `"ms"` and whose text with `"ms"` removed parses as
a float (`try/except ValueError: continue`). -/
def firstMsValue : Nat → List String → Option ℚ
  | _, [] => none
  | i, p :: rest =>
    if 0 < i ∧ strEndsWith p "ms" then
      match pyFloat? (strRemoveAll p "ms") with
      | some v => some v
      | none => firstMsValue (i + 1) rest
    else firstMsValue (i + 1) rest

/-- Scan of the `Samples:` branch: first token that `isdigit()`. -/
def firstDigitToken : List String → Option Nat
  | [] => none
  | p :: rest =>
    if pyIsDigit p then some (digitsVal p.data) else firstDigitToken rest

/-- One iteration of the parsing loop of `_parse_timing_summary`
(lines 180–211): strip the line, then the `elif` chain on
`"Daemon mode:"`, `"Direct mode:"`, `"Samples:"`. -/
def parseLine (res : TimingSummary) (rawLine : String) : TimingSummary :=
  let line := pyStrip rawLine
  if strContains line "Daemon mode:" then
    match firstMsValue 0 (splitWsTokens line) with
    | some v => { res with daemon_avg_ms := some v }
    | none => res
  else if strContains line "Direct mode:" then
    match firstMsValue 0 (splitWsTokens line) with
    | some v => { res with direct_avg_ms := some v }
    | none => res
  else if strContains line "Samples:" then
    match firstDigitToken (splitWsTokens line) with
    | some n =>
      if res.daemon_samples = none then { res with daemon_samples := some n }
      else { res with direct_samples := some n }
    | none => res
  else res

/-- Embedding of `_parse_timing_summary(output)`: fold the line parser over
`output.split('\n')` starting from the empty dictionary. -/
def parse_timing_summary (output : String) : TimingSummary :=
  (strSplitNl output).foldl parseLine emptySummary

/-! ## Process driver (`_run_command`, lines 52–61) -/

/-- Observable outcome of one `subprocess.run` call (external world input):
the child completed, or the call raised `TimeoutExpired` after measuring
`elapsed` seconds, or it raised `FileNotFoundError` (executable not
spawnable). -/
inductive ExecOutcome where
  | completed (returncode : Int) (stdout stderr : String) (elapsed : ℚ)
  | timedOut (elapsed : ℚ)
  | spawnFailure
deriving DecidableEq, Repr

/-- Oracle entry used when the stream is exhausted: a benignly failing
command.  Concrete theorems always supply enough entries. -/
def defaultOutcome : ExecOutcome := .completed 1 "" "" 0

/-- The default `timeout` argument of `_run_command` (10 seconds). -/
def defaultTimeout : ℚ := 10

/-- Embedding of `_run_command`: returns `(success, stdout+stderr, elapsed)`
on completion, `(False, "Command timed out", elapsed)` when the call raised
`TimeoutExpired`, and propagates the exception (`Except.error`) when the
executable could not be spawned — only `TimeoutExpired` is caught. -/
def run_command (o : ExecOutcome) : Except Unit (Bool × String × ℚ) :=
  match o with
  | .completed rc out err e => .ok (rc == 0, out ++ err, e)
  | .timedOut e => .ok (false, "Command timed out", e)
  | .spawnFailure => .error ()

/-! ## Harness state and oracle-stream plumbing -/

/-- Errors that can escape the benchmark phases: a propagated
`FileNotFoundError` from `subprocess.run`, or the `RuntimeError` raised by
`benchmark_daemon_mode` when the daemon start command fails. -/
inductive Err where
  | spawnFailure
  | daemonStartFailed
deriving DecidableEq, Repr

/-- The JSON artifact written by `_export_detailed_data` (lines 318–334):
`benchmark_config`, the `results` dict (whose `daemon`/`direct` keys are
never appended to by the script and stay empty), and the `summary` from a
fresh `_get_timing_summary()` call. -/
structure ExportData where
  iterations : Nat
  timestamp : ℚ
  aka_binary : String
  daemon : List ℚ
  direct : List ℚ
  wall_clock_daemon : List ℚ
  wall_clock_direct : List ℚ
  summary : TimingSummary
deriving DecidableEq, Repr

/-- One file written by the harness. -/
structure Artifact where
  filename : String
  data : ExportData
deriving DecidableEq, Repr

/-- Harness state: the oracle stream of subprocess outcomes (`env`, read at
index `k`), the `self.results` wall-clock sample lists, and instrumentation
of the observable effects (commands issued, `_run_query` calls with their
mode tag, files written). `iterations`, `aka_binary` (as the constant `aka`)
and the `time.time()` reading used in the export config are the run
configuration. -/
structure S where
  env : List ExecOutcome
  k : Nat
  iterations : Nat
  timeNow : ℚ
  trace : List (List String)
  queryLog : List (String × String)
  wall_clock_daemon : List ℚ
  wall_clock_direct : List ℚ
  artifacts : List Artifact
deriving DecidableEq

/-- The discovered binary path (`self.aka_binary`); `_find_aka_binary` is a
pre-run discovery step whose result is this name. -/
def aka : String := "aka"

/-- Initial harness state for a given oracle stream and iteration count. -/
def initS (env : List ExecOutcome) (iterations : Nat) : S :=
  { env := env, k := 0, iterations := iterations, timeNow := 0, trace := [],
    queryLog := [], wall_clock_daemon := [], wall_clock_direct := [],
    artifacts := [] }

/-- Issue one subprocess invocation: consume the next oracle outcome, record
the argv in the trace, and return `_run_command`'s result (a spawn failure
propagates). -/
def runCmdS (argv : List String) (s : S) : Except Err (Bool × String × ℚ) × S :=
  match run_command (s.env.getD s.k defaultOutcome) with
  | .ok r => (.ok r, { s with k := s.k + 1, trace := s.trace ++ [argv] })
  | .error _ =>
    (.error Err.spawnFailure, { s with k := s.k + 1, trace := s.trace ++ [argv] })

/-- Embedding of `_is_daemon_running` (lines 85–88): status command succeeded and its
output contains `"running"` (lower-cased). -/
def is_daemon_running (s : S) : Except Err Bool × S :=
  match runCmdS [aka, "daemon", "--status"] s with
  | (.ok (succ, out, _), s1) => (.ok (succ && strContains (strLower out) "running"), s1)
  | (.error e, s1) => (.error e, s1)

/-- Embedding of `_start_daemon` (lines 63–72): issue `daemon --start` and return its
success flag (the two-second settle sleep has no observable effect in this
model). No status probe is performed before or after the command. -/
def start_daemon (s : S) : Except Err Bool × S :=
  match runCmdS [aka, "daemon", "--start"] s with
  | (.ok (succ, _, _), s1) => (.ok succ, s1)
  | (.error e, s1) => (.error e, s1)

/-- Embedding of `_stop_daemon` (lines 74–83): issue `daemon --stop` and return its
success flag. -/
def stop_daemon (s : S) : Except Err Bool × S :=
  match runCmdS [aka, "daemon", "--stop"] s with
  | (.ok (succ, _, _), s1) => (.ok succ, s1)
  | (.error e, s1) => (.error e, s1)

/-- Embedding of `_run_query` (lines 90–93): run `aka query <q>` and return the success
flag and wall-clock seconds; the call is logged with the `mode` tag the
call site passes. -/
def run_query (q mode : String) (s : S) : Except Err (Bool × ℚ) × S :=
  match runCmdS [aka, "query", q] { s with queryLog := s.queryLog ++ [(q, mode)] } with
  | (.ok (succ, _, wall), s1) => (.ok (succ, wall), s1)
  | (.error e, s1) => (.error e, s1)

/-- The daemon-mode trial loop (lines 122–132): for each iteration run the
query and, only on success, append `wall_time * 1000` to
`self.results['wall_clock_daemon']`; failures are printed and skipped. -/
def daemonTrials : Nat → S → Except Err Unit × S
  | 0, s => (.ok (), s)
  | n + 1, s =>
    match run_query "ls -la" "daemon" s with
    | (.ok (succ, wall), s1) =>
      let s2 : S := if succ then
          { s1 with wall_clock_daemon := s1.wall_clock_daemon ++ [wall * 1000] }
        else s1
      daemonTrials n s2
    | (.error e, s1) => (.error e, s1)

/-- The direct-mode trial loop (lines 145–155), appending to
`self.results['wall_clock_direct']`. -/
def directTrials : Nat → S → Except Err Unit × S
  | 0, s => (.ok (), s)
  | n + 1, s =>
    match run_query "ls -la" "direct" s with
    | (.ok (succ, wall), s1) =>
      let s2 : S := if succ then
          { s1 with wall_clock_direct := s1.wall_clock_direct ++ [wall * 1000] }
        else s1
      directTrials n s2
    | (.error e, s1) => (.error e, s1)

/-- Embedding of `benchmark_daemon_mode` (lines 114–135): start the daemon and raise
`RuntimeError` if the start command failed (before the `try`, so no stop);
otherwise run the trials with `finally: self._stop_daemon()` — the stop also
runs when the loop raised, and an exception in the `finally` replaces the
original one. -/
def tryStopOk (s2 : S) : Except Err Unit × S :=
  match stop_daemon s2 with
  | (.ok _, s3) => (.ok (), s3)
  | (.error e, s3) => (.error e, s3)

/-- The `finally` stop after an exception in the loop: the original
exception is re-raised unless the stop itself raises. -/
def tryStopReraise (e : Err) (s2 : S) : Except Err Unit × S :=
  match stop_daemon s2 with
  | (.ok _, s3) => (.error e, s3)
  | (.error e2, s3) => (.error e2, s3)

/-- The `try: <loop> finally: self._stop_daemon()` block of
`benchmark_daemon_mode`. -/
def daemonTrialsThenStop (s1 : S) : Except Err Unit × S :=
  match daemonTrials s1.iterations s1 with
  | (.ok _, s2) => tryStopOk s2
  | (.error e, s2) => tryStopReraise e s2

def benchmark_daemon_mode (s : S) : Except Err Unit × S :=
  match start_daemon s with
  | (.ok true, s1) => daemonTrialsThenStop s1
  | (.ok false, s1) => (.error Err.daemonStartFailed, s1)
  | (.error e, s1) => (.error e, s1)

/-- Embedding of `benchmark_direct_mode` (lines 137–155): stop the daemon if the status
probe reports it running, then run the trials. -/
def directAfterStop (s1 : S) : Except Err Unit × S :=
  match stop_daemon s1 with
  | (.ok _, s2) => directTrials s2.iterations s2
  | (.error e, s2) => (.error e, s2)

def benchmark_direct_mode (s : S) : Except Err Unit × S :=
  match is_daemon_running s with
  | (.ok true, s1) => directAfterStop s1
  | (.ok false, s1) => directTrials s1.iterations s1
  | (.error e, s1) => (.error e, s1)

/-- The body of `_get_timing_summary`'s `try` block (lines 166–171): if the
`daemon --timing-summary` command succeeded, parse its output, else return
the empty dictionary. -/
def timingSummaryResult (succ : Bool) (out : String) : TimingSummary :=
  if succ then parse_timing_summary out else emptySummary

/-- Embedding of `try: <fetch> finally: self._stop_daemon()` of `_get_timing_summary`. -/
def summaryStop (ts : TimingSummary) (s1 : S) : Except Err TimingSummary × S :=
  match stop_daemon s1 with
  | (.ok _, s2) => (.ok ts, s2)
  | (.error e, s2) => (.error e, s2)

/-- The `finally` stop when the summary fetch itself raised. -/
def summaryStopReraise (e : Err) (s1 : S) : Except Err TimingSummary × S :=
  match stop_daemon s1 with
  | (.ok _, s2) => (.error e, s2)
  | (.error e2, s2) => (.error e2, s2)

def summaryTryStop (s : S) : Except Err TimingSummary × S :=
  match runCmdS [aka, "daemon", "--timing-summary"] s with
  | (.ok (succ, out, _), s1) => summaryStop (timingSummaryResult succ out) s1
  | (.error e, s1) => summaryStopReraise e s1

/-- Embedding of `_get_timing_summary` (lines 157–173): start the daemon first when the
status probe reports it absent (ignoring the start result), then fetch and
parse the summary, stopping the daemon in a `finally`. -/
def summaryAfterStart (s1 : S) : Except Err TimingSummary × S :=
  match start_daemon s1 with
  | (.ok _, s2) => summaryTryStop s2
  | (.error e, s2) => (.error e, s2)

def get_timing_summary (s : S) : Except Err TimingSummary × S :=
  match is_daemon_running s with
  | (.ok true, s1) => summaryTryStop s1
  | (.ok false, s1) => summaryAfterStart s1
  | (.error e, s1) => (.error e, s1)

/-- The export record written by `_export_detailed_data` from the current
state and the freshly fetched summary. -/
def mkExportData (s : S) (ts : TimingSummary) : ExportData :=
  { iterations := s.iterations, timestamp := s.timeNow, aka_binary := aka,
    daemon := [], direct := [],
    wall_clock_daemon := s.wall_clock_daemon,
    wall_clock_direct := s.wall_clock_direct, summary := ts }

/-- Embedding of `_export_detailed_data` (lines 318–334): call `_get_timing_summary`
again, then write a single JSON file named `benchmark_results.json`. -/
def export_detailed_data (s : S) : Except Err Unit × S :=
  match get_timing_summary s with
  | (.ok ts, s1) =>
    (.ok (), { s1 with artifacts :=
        s1.artifacts ++ [⟨"benchmark_results.json", mkExportData s1 ts⟩] })
  | (.error e, s1) => (.error e, s1)

/-! ## Report aggregation (`generate_report`, lines 215–316) -/

/-- Embedding of `statistics.mean` (arithmetic mean); only applied to non-empty lists by
the guarded code (in `ℚ`, the unguarded empty case gives `0/0 = 0`). -/
def pyMean (xs : List ℚ) : ℚ := xs.sum / (xs.length : ℚ)

/-- Sample variance with Bessel's correction, the quantity under the square
root in `statistics.stdev`; only applied when the list has at least two
elements. -/
def sampleVar (xs : List ℚ) : ℚ :=
  ((xs.map (fun x => (x - pyMean xs) ^ 2)).sum) / ((xs.length : ℚ) - 1)

/-- Embedding of `statistics.stdev`: square root of the sample variance (a real number;
this is the one non-executable corner of the model). -/
noncomputable def sampleStdev (xs : List ℚ) : ℝ := Real.sqrt (sampleVar xs)

/-- Python `min` over a non-empty list (the `[]` case is unreachable under
the code's guard). -/
def pyMin : List ℚ → ℚ
  | [] => 0
  | h :: t => t.foldl min h

/-- Python `max` over a non-empty list. -/
def pyMax : List ℚ → ℚ
  | [] => 0
  | h :: t => t.foldl max h

/-- The wall-clock half of the report (lines 225–260): per-mode average,
standard deviation, min, max and sample count, plus the improvement pair
`(wall_improvement, wall_improvement_pct)` printed only when both averages
are positive. -/
structure WallReport where
  daemon_avg : ℚ
  daemon_std : ℝ
  daemon_min : ℚ
  daemon_max : ℚ
  daemon_n : Nat
  direct_avg : ℚ
  direct_std : ℝ
  direct_min : ℚ
  direct_max : ℚ
  direct_n : Nat
  improvement : Option (ℚ × ℚ)

/-- Lines 225–239 and 256–260 of `generate_report`: statistics are computed
when the sample list is non-empty (all-zero otherwise), the standard
deviation only when there are at least two samples (zero otherwise), and the
improvement pair only when both averages are positive. -/
noncomputable def wallReport (dwall cwall : List ℚ) : WallReport :=
  let davg := if dwall ≠ [] then pyMean dwall else 0
  let dstd : ℝ := if dwall ≠ [] then
      (if 1 < dwall.length then sampleStdev dwall else 0) else 0
  let dmin := if dwall ≠ [] then pyMin dwall else 0
  let dmax := if dwall ≠ [] then pyMax dwall else 0
  let cavg := if cwall ≠ [] then pyMean cwall else 0
  let cstd : ℝ := if cwall ≠ [] then
      (if 1 < cwall.length then sampleStdev cwall else 0) else 0
  let cmin := if cwall ≠ [] then pyMin cwall else 0
  let cmax := if cwall ≠ [] then pyMax cwall else 0
  { daemon_avg := davg, daemon_std := dstd, daemon_min := dmin,
    daemon_max := dmax, daemon_n := dwall.length,
    direct_avg := cavg, direct_std := cstd, direct_min := cmin,
    direct_max := cmax, direct_n := cwall.length,
    improvement := if 0 < davg ∧ 0 < cavg then
        some (cavg - davg, (cavg - davg) / cavg * 100) else none }

/-- The internal-timing section of the report (lines 263–284). -/
structure InternalReport where
  daemon_avg : ℚ
  direct_avg : ℚ
  daemon_n : Nat
  direct_n : Nat
  improvement : Option (ℚ × ℚ)
deriving DecidableEq, Repr

/-- Embedding of `if timing_summary:` — the section is rendered only when the parsed
dictionary is non-empty; its numbers use `.get(key, 0)` defaults and its own
improvement pair is printed only when both internal averages are positive. -/
def internalReport (ts : TimingSummary) : Option InternalReport :=
  if ts = emptySummary then none
  else
    let d := ts.daemon_avg_ms.getD 0
    let c := ts.direct_avg_ms.getD 0
    some { daemon_avg := d, direct_avg := c,
           daemon_n := ts.daemon_samples.getD 0,
           direct_n := ts.direct_samples.getD 0,
           improvement := if 0 < d ∧ 0 < c then
               some (c - d, (c - d) / c * 100) else none }

/-- The rendered report: wall-clock section, optional internal-timing
section, and the performance-analysis pair
`(startup_overhead, config_overhead)` of lines 290–295, printed under the
same both-wall-averages-positive guard. -/
structure Report where
  wall : WallReport
  internal : Option InternalReport
  analysis : Option (ℚ × ℚ)

/-- The pure content of `generate_report` given the collected samples and
the parsed timing summary. -/
noncomputable def mkReport (dwall cwall : List ℚ) (ts : TimingSummary) : Report :=
  let w := wallReport dwall cwall
  { wall := w, internal := internalReport ts,
    analysis := if 0 < w.daemon_avg ∧ 0 < w.direct_avg then
        some (w.daemon_avg - ts.daemon_avg_ms.getD 0,
              ts.direct_avg_ms.getD 0 - ts.daemon_avg_ms.getD 0) else none }

/-- Embedding of `generate_report` (lines 215–316): fetch the timing summary, export the
detailed data (which fetches the summary again), and render the report from
the collected samples. -/
noncomputable def reportExport (ts : TimingSummary) (s1 : S) :
    Except Err Report × S :=
  match export_detailed_data s1 with
  | (.ok _, s2) =>
    (.ok (mkReport s2.wall_clock_daemon s2.wall_clock_direct ts), s2)
  | (.error e, s2) => (.error e, s2)

noncomputable def generate_report (s : S) : Except Err Report × S :=
  match get_timing_summary s with
  | (.ok ts, s1) => reportExport ts s1
  | (.error e, s1) => (.error e, s1)

/-- The benchmark-and-report sequence of `run` (lines 350–354): daemon-mode
trials, then direct-mode trials, then the report. -/
noncomputable def runPhasesDirect (s1 : S) : Except Err Report × S :=
  match benchmark_direct_mode s1 with
  | (.ok _, s2) => generate_report s2
  | (.error e, s2) => (.error e, s2)

noncomputable def runPhases (s : S) : Except Err Report × S :=
  match benchmark_daemon_mode s with
  | (.ok _, s1) => runPhasesDirect s1
  | (.error e, s1) => (.error e, s1)

/-- Embedding of `run` (lines 336–354), the body of its `try`: stop a leftover daemon if
the status probe reports one, benchmark daemon mode, then direct mode, then
generate the report.  (The `except` handlers re-raise after a cleanup stop
and are outside this model's observable state.) -/
noncomputable def runSuiteStop (s1 : S) : Except Err Report × S :=
  match stop_daemon s1 with
  | (.ok _, s2) => runPhases s2
  | (.error e, s2) => (.error e, s2)

noncomputable def runSuite (s : S) : Except Err Report × S :=
  match is_daemon_running s with
  | (.ok true, s1) => runSuiteStop s1
  | (.ok false, s1) => runPhases s1
  | (.error e, s1) => (.error e, s1)

deriving instance DecidableEq for Except

/-! ## Spec-side definitions used to state the claims -/

/-- Arithmetic mean, as the spec's "mean" over a non-empty sample set. -/
def specMean (xs : List ℚ) : ℚ := xs.sum / (xs.length : ℚ)

/-- Claim C2 as written: the improvement pair is present iff both modes have
at least one successful sample and the fallback (direct) mean is non-zero,
with `improvement = fallback mean − daemon mean` and
`percent = improvement / fallback mean * 100`. -/
def specImprovementClaim (d c : List ℚ) : Option (ℚ × ℚ) :=
  if d ≠ [] ∧ c ≠ [] ∧ specMean c ≠ 0 then
    some (specMean c - specMean d, (specMean c - specMean d) / specMean c * 100)
  else none

/-- Claim C2 amended: the improvement pair is present iff both modes have at
least one sample and both means are positive (the code's
`avg > 0` guards, with the average defined as `0` for an empty set). -/
def specImprovementAmended (d c : List ℚ) : Option (ℚ × ℚ) :=
  if d ≠ [] ∧ c ≠ [] ∧ 0 < specMean d ∧ 0 < specMean c then
    some (specMean c - specMean d, (specMean c - specMean d) / specMean c * 100)
  else none

/-- Claim C1 amended: the millisecond durations of exactly the successful
invocations, in invocation order (`elapsed * 1000` for each outcome that
completed with exit status `0`). -/
def successSamples (os : List ExecOutcome) : List ℚ :=
  os.filterMap (fun o =>
    match o with
    | ExecOutcome.completed rc _ _ e => if rc == 0 then some (e * 1000) else none
    | _ => none)

/-- No outcome of the oracle stream is a spawn failure (the executable stays
spawnable for the whole run). -/
def NoSpawn (env : List ExecOutcome) : Prop :=
  ∀ o ∈ env, o ≠ ExecOutcome.spawnFailure

instance (env : List ExecOutcome) : Decidable (NoSpawn env) := by
  unfold NoSpawn; infer_instance

/-- Claim C10 as written reads sample counts off the "Samples:" lines in
order of occurrence: the integer tokens of all (stripped) lines containing
`"Samples:"`. -/
def claimSamplesLines (output : String) : List Nat :=
  (strSplitNl output).filterMap (fun rawLine =>
    let line := pyStrip rawLine
    if strContains line "Samples:" then firstDigitToken (splitWsTokens line)
    else none)

/-- Claim C10 as written: daemon count = first such token, direct count =
second such token. -/
def specC10claim (output : String) : Option Nat × Option Nat :=
  ((claimSamplesLines output).head?, ((claimSamplesLines output).drop 1).head?)

/-- The integer tokens of the lines that actually reach the parser's
`Samples:` branch: lines containing `"Samples:"` but neither
`"Daemon mode:"` nor `"Direct mode:"` (those are consumed by the earlier
`elif` arms). -/
def samplesTokens (output : String) : List Nat :=
  (strSplitNl output).filterMap (fun rawLine =>
    let line := pyStrip rawLine
    if ¬ strContains line "Daemon mode:" ∧ ¬ strContains line "Direct mode:" ∧
        strContains line "Samples:" then
      firstDigitToken (splitWsTokens line)
    else none)

/-- Token-by-token sample-count assignment: the first token fills the daemon
slot, every later token (over)writes the direct slot. -/
def assignSamples : Option Nat × Option Nat → List Nat → Option Nat × Option Nat
  | p, [] => p
  | (none, dir), t :: rest => assignSamples (some t, dir) rest
  | (some d, _), t :: rest => assignSamples (some d, some t) rest

/-- Claim C10 amended: daemon count = first token of the lines that reach
the `Samples:` branch, direct count = last of the remaining tokens. -/
def specC10amended (output : String) : Option Nat × Option Nat :=
  ((samplesTokens output).head?, ((samplesTokens output).drop 1).getLast?)

/-! ## Concrete inputs used by counterexamples and witnesses -/

/-- A timing-summary text whose first "Samples:" line sits on the same line
as a "Daemon mode:" label. -/
def outC10 : String := "Daemon mode: Samples: 7\nSamples: 9"

/-- Two daemon-mode invocations: the first succeeds in 1 s, the second exits
with status 1 after 2 s. -/
def envC1 : List ExecOutcome :=
  [ExecOutcome.completed 0 "" "" 1, ExecOutcome.completed 1 "" "" 2]

def sC1 : S := initS envC1 2

/-- A start command that reports success followed by a status probe that
would report the daemon absent. -/
def envC4 : List ExecOutcome :=
  [ExecOutcome.completed 0 "daemon started" "" 1,
   ExecOutcome.completed 0 "daemon stopped" "" 1]

def sC4 : S := initS envC4 0

/-- A fully successful one-iteration run: initial probe (stopped), daemon
start, one daemon query, stop, direct probe (stopped), one direct query,
then two diagnostics rounds whose `--timing-summary` command fails. -/
def envC5 : List ExecOutcome :=
  [ExecOutcome.completed 0 "stopped" "" 1,
   ExecOutcome.completed 0 "" "" 1,
   ExecOutcome.completed 0 "" "" 1,
   ExecOutcome.completed 0 "" "" 1,
   ExecOutcome.completed 0 "stopped" "" 1,
   ExecOutcome.completed 0 "" "" 1,
   ExecOutcome.completed 0 "stopped" "" 1,
   ExecOutcome.completed 0 "" "" 1,
   ExecOutcome.completed 1 "" "" 1,
   ExecOutcome.completed 0 "" "" 1,
   ExecOutcome.completed 0 "stopped" "" 1,
   ExecOutcome.completed 0 "" "" 1,
   ExecOutcome.completed 1 "" "" 1,
   ExecOutcome.completed 0 "" "" 1]

def sC5 : S := initS envC5 1

/-- Exhausted oracle: every command fails benignly (no spawn failure). -/
def sC7 : S := initS [] 0

/-- One diagnostics round: probe (stopped), start, failing summary command,
stop. -/
def envC9 : List ExecOutcome :=
  [ExecOutcome.completed 0 "stopped" "" 1,
   ExecOutcome.completed 0 "" "" 1,
   ExecOutcome.completed 1 "" "" 1,
   ExecOutcome.completed 0 "" "" 1]

def sC9 : S := initS envC9 3

/-- The state after `get_timing_summary sC9`: four commands issued, oracle
index at 4, everything else untouched. -/
def s1C9 : S :=
  { env := envC9, k := 4, iterations := 3, timeNow := 0,
    trace := [[aka, "daemon", "--status"], [aka, "daemon", "--start"],
              [aka, "daemon", "--timing-summary"], [aka, "daemon", "--stop"]],
    queryLog := [], wall_clock_daemon := [], wall_clock_direct := [],
    artifacts := [] }

/-! ## Claim C3: timeout handling in the process driver -/

/-- C3 counterexample: a query that times out against the default 10-second
timeout but is measured at 10.5 s elapsed.  `_run_command` returns the
measured elapsed time, not the configured timeout, and its timed-out result
carries only the `False` success flag and the string `"Command timed out"`
(no distinguished exit-status sentinel or `timed_out` field), so the claimed
`duration == timeout` fails. -/
theorem C3_counterexample :
    run_command (ExecOutcome.timedOut (21 / 2)) =
      Except.ok (false, "Command timed out", 21 / 2) ∧
    (21 / 2 : ℚ) ≠ defaultTimeout := by
  refine ⟨rfl, ?_⟩
  unfold defaultTimeout
  norm_num

/-- C3 amended: when a child-process invocation exceeds its timeout,
`_run_command` catches `TimeoutExpired` and returns a structured result
whose success flag is `False`, whose output is `"Command timed out"`, and
whose duration is the wall-clock time measured around the invocation (at
least the timeout, but not equal to it in general). -/
theorem C3_amended (e : ℚ) :
    run_command (ExecOutcome.timedOut e) =
      Except.ok (false, "Command timed out", e) := rfl

/-! ## Claim C8: which execution failures surface as structured results -/

/-- C8 counterexample: when `subprocess.run` raises `FileNotFoundError`
(spawn failure of the named executable), `_run_command` does not return a
structured result — only `TimeoutExpired` is caught, so the exception
propagates to the caller. -/
theorem C8_counterexample :
    run_command ExecOutcome.spawnFailure = Except.error () := rfl

/-- C8 amended: `_run_command` returns a structured result for non-zero
exits and for timeouts, but a spawn failure of the named executable
propagates as an exception rather than as a result. -/
theorem C8_amended (rc : Int) (out err : String) (e t : ℚ) :
    (run_command (ExecOutcome.completed rc out err e)).isOk = true ∧
    (run_command (ExecOutcome.timedOut t)).isOk = true ∧
    (run_command ExecOutcome.spawnFailure).isOk = false :=
  ⟨rfl, rfl, rfl⟩

/-! ## Claim C2: presence and value of the improvement fields -/

/-- C2 counterexample: one successful daemon sample measured at 0 ms and one
fallback sample at 50 ms.  Both modes have a successful sample and the
fallback mean (50) is non-zero, so the claim requires the improvement fields
to be present — but the code's guard is `daemon_wall_avg > 0 and
direct_wall_avg > 0`, so it omits them. -/
theorem C2_counterexample :
    (wallReport [0] [50]).improvement = none ∧
    specImprovementClaim [0] [50] = some (50, 100) := by
  constructor
  · simp [wallReport, pyMean]
  · simp only [specImprovementClaim, specMean]
    norm_num

/-- C2 amended: the improvement fields appear iff both modes have at least
one successful sample and both means are positive; when present, the
improvement equals the fallback mean minus the daemon mean and the
percentage is that difference divided by the fallback mean times 100.  In
particular daemon samples `[10, 12, 14]` and fallback samples
`[50, 52, 48]` yield improvement 38 ms at 76 %. -/
theorem C2_amended (d c : List ℚ) :
    (wallReport d c).improvement = specImprovementAmended d c ∧
    (wallReport [10, 12, 14] [50, 52, 48]).improvement = some (38, 76) := by
  constructor
  · by_cases hd : d = []
    · subst hd
      simp [wallReport, specImprovementAmended]
    · by_cases hc : c = []
      · subst hc
        simp [wallReport, specImprovementAmended, hd]
      · simp [wallReport, specImprovementAmended, hd, hc, pyMean, specMean]
  · simp [wallReport, pyMean]
    norm_num

/-! ## Claim C6: per-mode mean and standard deviation -/

/-- C6: for every non-empty sample list of a mode, the reported average is
the arithmetic mean of the recorded durations, and the reported standard
deviation of a one-element sample list is zero (the `stdev` call is guarded
by `len > 1` and the value is defined as `0` otherwise, so no domain error
can occur). -/
theorem C6_stats (d c : List ℚ) (hd : d ≠ []) (hc : c ≠ []) :
    (wallReport d c).daemon_avg = d.sum / (d.length : ℚ) ∧
    (wallReport d c).direct_avg = c.sum / (c.length : ℚ) ∧
    (d.length = 1 → (wallReport d c).daemon_std = 0) ∧
    (c.length = 1 → (wallReport d c).direct_std = 0) := by
  refine ⟨?_, ?_, fun h1 => ?_, fun h1 => ?_⟩
  · simp [wallReport, hd, pyMean]
  · simp [wallReport, hc, pyMean]
  · simp [wallReport, hd, h1]
  · simp [wallReport, hc, h1]

/-- C6 witness: a single daemon sample of 5 ms and a single fallback sample
of 7 ms report means 5 and 7 with standard deviation zero. -/
theorem C6_stats_witness :
    (wallReport [5] [7]).daemon_avg = 5 ∧ (wallReport [5] [7]).direct_avg = 7 ∧
    (wallReport [5] [7]).daemon_std = 0 ∧ (wallReport [5] [7]).direct_std = 0 := by
  have h := C6_stats [5] [7] (by simp) (by simp)
  refine ⟨?_, ?_, h.2.2.1 rfl, h.2.2.2 rfl⟩
  · rw [h.1]; norm_num
  · rw [h.2.1]; norm_num

/-! ## Claim C10: sample-count assignment in the timing-summary parser -/

/-- C10 counterexample: in `outC10` the first line containing `"Samples:"`
with an integer token is `"Daemon mode: Samples: 7"`, so the claim predicts
daemon count 7 and direct count 9; but that line is consumed by the
`"Daemon mode:"` `elif` arm, so the parser assigns daemon count 9 (from the
second line) and leaves the direct count unset. -/
theorem C10_counterexample :
    (parse_timing_summary outC10).daemon_samples ≠ (specC10claim outC10).1 ∧
    (parse_timing_summary outC10).direct_samples ≠ (specC10claim outC10).2 ∧
    specC10claim outC10 = (some 7, some 9) ∧
    (parse_timing_summary outC10).daemon_samples = some 9 ∧
    (parse_timing_summary outC10).direct_samples = none := by
  refine ⟨by decide, by decide, by decide, by decide, by decide⟩

/-- Lemma: `assignSamples` on no tokens is the identity. -/
theorem assignSamples_nil (p : Option Nat × Option Nat) :
    assignSamples p [] = p := by
  rcases p with ⟨d, dir⟩
  cases d <;> rfl

/-- Lemma: `assignSamples` processes token lists piecewise. -/
theorem assignSamples_append (p : Option Nat × Option Nat) (l1 l2 : List Nat) :
    assignSamples (assignSamples p l1) l2 = assignSamples p (l1 ++ l2) := by
  induction l1 generalizing p with
  | nil => rw [assignSamples_nil, List.nil_append]
  | cons t rest ih =>
    rcases p with ⟨d, dir⟩
    cases d with
    | none =>
      rw [show assignSamples (none, dir) (t :: rest) =
            assignSamples (some t, dir) rest from rfl,
          List.cons_append,
          show assignSamples (none, dir) (t :: (rest ++ l2)) =
            assignSamples (some t, dir) (rest ++ l2) from rfl]
      exact ih _
    | some v =>
      rw [show assignSamples (some v, dir) (t :: rest) =
            assignSamples (some v, some t) rest from rfl,
          List.cons_append,
          show assignSamples (some v, dir) (t :: (rest ++ l2)) =
            assignSamples (some v, some t) (rest ++ l2) from rfl]
      exact ih _

/-- Effect of one parsed line on the sample fields: one `assignSamples` step
on the line's token when the line reaches the `Samples:` branch, no change
otherwise. -/
theorem parseLine_samples (res : TimingSummary) (rawLine : String) :
    ((parseLine res rawLine).daemon_samples, (parseLine res rawLine).direct_samples) =
      assignSamples (res.daemon_samples, res.direct_samples)
        (Option.toList (if ¬ strContains (pyStrip rawLine) "Daemon mode:" ∧
            ¬ strContains (pyStrip rawLine) "Direct mode:" ∧
            strContains (pyStrip rawLine) "Samples:" then
          firstDigitToken (splitWsTokens (pyStrip rawLine)) else none)) := by
  unfold parseLine
  by_cases h1 : strContains (pyStrip rawLine) "Daemon mode:"
  · cases hm : firstMsValue 0 (splitWsTokens (pyStrip rawLine)) <;>
      simp [h1, hm, assignSamples_nil]
  · by_cases h2 : strContains (pyStrip rawLine) "Direct mode:"
    · cases hm : firstMsValue 0 (splitWsTokens (pyStrip rawLine)) <;>
        simp [h1, h2, hm, assignSamples_nil]
    · by_cases h3 : strContains (pyStrip rawLine) "Samples:"
      · cases ht : firstDigitToken (splitWsTokens (pyStrip rawLine)) with
        | none => simp [h1, h2, h3, ht, assignSamples_nil]
        | some n =>
          cases hds : res.daemon_samples with
          | none => simp [h1, h2, h3, ht, hds, assignSamples]
          | some v => simp [h1, h2, h3, ht, hds, assignSamples]
      · simp [h1, h2, h3, assignSamples_nil]

/-- Folding the line parser updates the sample fields exactly through
`assignSamples` on the tokens of the lines that reach the `Samples:`
branch. -/
theorem parse_fold_samples (lines : List String) (res : TimingSummary) :
    ((lines.foldl parseLine res).daemon_samples,
     (lines.foldl parseLine res).direct_samples) =
      assignSamples (res.daemon_samples, res.direct_samples)
        (lines.filterMap (fun rawLine =>
          if ¬ strContains (pyStrip rawLine) "Daemon mode:" ∧
              ¬ strContains (pyStrip rawLine) "Direct mode:" ∧
              strContains (pyStrip rawLine) "Samples:" then
            firstDigitToken (splitWsTokens (pyStrip rawLine)) else none)) := by
  induction lines generalizing res with
  | nil => simp only [List.foldl_nil, List.filterMap_nil, assignSamples_nil]
  | cons l ls ih =>
    have hstep := parseLine_samples res l
    simp only [List.foldl_cons, List.filterMap_cons]
    rw [ih (parseLine res l), hstep, assignSamples_append]
    cases hcond : (if ¬ strContains (pyStrip l) "Daemon mode:" ∧
        ¬ strContains (pyStrip l) "Direct mode:" ∧
        strContains (pyStrip l) "Samples:" then
      firstDigitToken (splitWsTokens (pyStrip l)) else none) with
    | none => rfl
    | some t => rfl

/-- After the first token the daemon slot is frozen and the direct slot ends
at the last token (or keeps its previous value when no token follows). -/
theorem assignSamples_some (toks : List Nat) (d : Nat) (dir : Option Nat) :
    assignSamples (some d, dir) toks =
      (some d, match toks.getLast? with | some t => some t | none => dir) := by
  induction toks generalizing dir with
  | nil => rfl
  | cons t rest ih =>
    rw [show assignSamples (some d, dir) (t :: rest) =
          assignSamples (some d, some t) rest from rfl]
    rw [ih (some t)]
    cases rest with
    | nil => rfl
    | cons u us =>
      rw [List.getLast?_cons_cons]
      cases h : (u :: us).getLast? with
      | none => simp at h
      | some v => rfl

/-- C10 amended: sample counts are assigned by order of occurrence among the
lines that reach the `Samples:` branch — lines containing `"Samples:"` but
neither `"Daemon mode:"` nor `"Direct mode:"` (those are captured by the
earlier `elif` arms).  The first such line's integer token sets the daemon
count and the last of the remaining such tokens ends up as the direct count
(the second one when exactly two such lines exist), regardless of which
mode's labeled section the lines appear under. -/
theorem C10_amended (output : String) :
    ((parse_timing_summary output).daemon_samples,
     (parse_timing_summary output).direct_samples) = specC10amended output := by
  unfold parse_timing_summary specC10amended samplesTokens
  rw [parse_fold_samples]
  rw [show emptySummary.daemon_samples = none from rfl,
      show emptySummary.direct_samples = none from rfl]
  generalize (strSplitNl output).filterMap (fun rawLine =>
      if ¬ strContains (pyStrip rawLine) "Daemon mode:" ∧
          ¬ strContains (pyStrip rawLine) "Direct mode:" ∧
          strContains (pyStrip rawLine) "Samples:" then
        firstDigitToken (splitWsTokens (pyStrip rawLine)) else none) = toks
  cases toks with
  | nil => rfl
  | cons t rest =>
    rw [show assignSamples (none, none) (t :: rest) =
          assignSamples (some t, none) rest from rfl]
    rw [assignSamples_some]
    cases h : rest.getLast? <;> simp [h]

/-! ## State lemmas for the oracle-stream model -/

/-- With a spawnable executable, the outcome read from the oracle is never a
spawn failure (the exhaustion default is a benign failing command). -/
theorem getD_ne_spawn (s : S) (h : NoSpawn s.env) :
    s.env.getD s.k defaultOutcome ≠ ExecOutcome.spawnFailure := by
  by_cases hk : s.k < s.env.length
  · rw [List.getD_eq_getElem _ _ hk]
    exact h _ (List.getElem_mem hk)
  · rw [List.getD_eq_default _ _ (Nat.le_of_not_lt hk)]
    intro hcon
    exact ExecOutcome.noConfusion hcon

/-- One subprocess invocation only advances the oracle cursor and extends
the trace, whatever the outcome. -/
theorem runCmdS_snd (argv : List String) (s : S) :
    (runCmdS argv s).2 = { s with k := s.k + 1, trace := s.trace ++ [argv] } := by
  unfold runCmdS
  cases h : run_command (s.env.getD s.k defaultOutcome) <;> rfl

/-- A subprocess invocation can only fail by propagating a spawn failure. -/
theorem runCmdS_error (argv : List String) (s : S) (e : Err)
    (h : (runCmdS argv s).1 = Except.error e) : e = Err.spawnFailure := by
  unfold runCmdS at h
  cases hr : run_command (s.env.getD s.k defaultOutcome) with
  | error u => rw [hr] at h; injection h with h2; exact h2.symm
  | ok r => rw [hr] at h; simp at h

/-- With a spawnable executable every subprocess invocation returns a
structured result. -/
theorem runCmdS_ok (argv : List String) (s : S) (h : NoSpawn s.env) :
    ∃ r, runCmdS argv s =
      (Except.ok r, { s with k := s.k + 1, trace := s.trace ++ [argv] }) := by
  unfold runCmdS
  cases ho : s.env.getD s.k defaultOutcome with
  | completed rc out err e => exact ⟨_, rfl⟩
  | timedOut e => exact ⟨_, rfl⟩
  | spawnFailure => exact absurd ho (getD_ne_spawn s h)

/-- Lemma: `_is_daemon_running` under a spawnable executable: a structured probe
result and the one-command state advance. -/
theorem is_daemon_running_ok (s : S) (h : NoSpawn s.env) :
    ∃ b, is_daemon_running s = (Except.ok b,
      { s with k := s.k + 1,
               trace := s.trace ++ [[aka, "daemon", "--status"]] }) := by
  obtain ⟨r, hr⟩ := runCmdS_ok [aka, "daemon", "--status"] s h
  rcases r with ⟨succ, out, t⟩
  exact ⟨_, by unfold is_daemon_running; rw [hr]⟩

/-- Lemma: `_start_daemon` under a spawnable executable. -/
theorem start_daemon_ok (s : S) (h : NoSpawn s.env) :
    ∃ b, start_daemon s = (Except.ok b,
      { s with k := s.k + 1,
               trace := s.trace ++ [[aka, "daemon", "--start"]] }) := by
  obtain ⟨r, hr⟩ := runCmdS_ok [aka, "daemon", "--start"] s h
  rcases r with ⟨succ, out, t⟩
  exact ⟨succ, by unfold start_daemon; rw [hr]⟩

/-- Lemma: `_stop_daemon` under a spawnable executable. -/
theorem stop_daemon_ok (s : S) (h : NoSpawn s.env) :
    ∃ b, stop_daemon s = (Except.ok b,
      { s with k := s.k + 1,
               trace := s.trace ++ [[aka, "daemon", "--stop"]] }) := by
  obtain ⟨r, hr⟩ := runCmdS_ok [aka, "daemon", "--stop"] s h
  rcases r with ⟨succ, out, t⟩
  exact ⟨succ, by unfold stop_daemon; rw [hr]⟩

/-- Lemma: `_run_query` when the oracle reports a completed child process. -/
theorem run_query_completed (q mode : String) (s : S) (rc : Int)
    (out err : String) (e : ℚ)
    (ho : s.env.getD s.k defaultOutcome = ExecOutcome.completed rc out err e) :
    run_query q mode s = (Except.ok (rc == 0, e),
      { s with k := s.k + 1,
               trace := s.trace ++ [[aka, "query", q]],
               queryLog := s.queryLog ++ [(q, mode)] }) := by
  unfold run_query runCmdS
  simp only [ho]
  rfl

/-- Lemma: `_run_query` when the oracle reports a timed-out child process. -/
theorem run_query_timedOut (q mode : String) (s : S) (e : ℚ)
    (ho : s.env.getD s.k defaultOutcome = ExecOutcome.timedOut e) :
    run_query q mode s = (Except.ok (false, e),
      { s with k := s.k + 1,
               trace := s.trace ++ [[aka, "query", q]],
               queryLog := s.queryLog ++ [(q, mode)] }) := by
  unfold run_query runCmdS
  simp only [ho]
  rfl

/-- The window of oracle outcomes a loop of `n + 1` invocations consumes,
split into its first outcome and the rest. -/
theorem window_succ (env : List ExecOutcome) (k n : Nat) (hk : k < env.length) :
    (env.drop k).take (n + 1) =
      env.getD k defaultOutcome :: (env.drop (k + 1)).take n := by
  rw [List.drop_eq_getElem_cons hk, List.take_succ_cons,
      List.getD_eq_getElem _ _ hk]

/-- An exhausted oracle yields an empty window. -/
theorem window_exhausted (env : List ExecOutcome) (k n : Nat)
    (hk : ¬ k < env.length) : (env.drop k).take n = [] := by
  rw [List.drop_eq_nil_of_le (Nat.le_of_not_lt hk), List.take_nil]

/-- Successful-sample decomposition of one more consumed outcome (the
exhaustion default contributes nothing, being a failing command). -/
theorem successSamples_window (env : List ExecOutcome) (k n : Nat) :
    successSamples ((env.drop k).take (n + 1)) =
      successSamples [env.getD k defaultOutcome] ++
        successSamples ((env.drop (k + 1)).take n) := by
  by_cases hk : k < env.length
  · rw [window_succ env k n hk]
    simp only [successSamples, List.filterMap_cons, List.filterMap_nil]
    cases env.getD k defaultOutcome with
    | completed rc out err e => by_cases hrc : rc = 0 <;> simp [hrc]
    | timedOut e => simp
    | spawnFailure => simp
  · rw [window_exhausted env k (n + 1) hk,
        window_exhausted env (k + 1) n (by omega),
        List.getD_eq_default _ _ (Nat.le_of_not_lt hk)]
    simp [successSamples, defaultOutcome]

/-- Unfolding one successful iteration of the daemon trial loop. -/
theorem daemonTrials_step_true (n : Nat) (s s1 : S) (w : ℚ)
    (hq : run_query "ls -la" "daemon" s = (Except.ok (true, w), s1)) :
    daemonTrials (n + 1) s = daemonTrials n
      { s1 with wall_clock_daemon := s1.wall_clock_daemon ++ [w * 1000] } := by
  show (match run_query "ls -la" "daemon" s with
    | (.ok (succ, wall), s1) =>
      daemonTrials n (if succ then
        { s1 with wall_clock_daemon := s1.wall_clock_daemon ++ [wall * 1000] }
      else s1)
    | (.error e, s1) => (.error e, s1)) = _
  rw [hq]
  rfl

/-- Unfolding one failed iteration of the daemon trial loop. -/
theorem daemonTrials_step_false (n : Nat) (s s1 : S) (w : ℚ)
    (hq : run_query "ls -la" "daemon" s = (Except.ok (false, w), s1)) :
    daemonTrials (n + 1) s = daemonTrials n s1 := by
  show (match run_query "ls -la" "daemon" s with
    | (.ok (succ, wall), s1) =>
      daemonTrials n (if succ then
        { s1 with wall_clock_daemon := s1.wall_clock_daemon ++ [wall * 1000] }
      else s1)
    | (.error e, s1) => (.error e, s1)) = _
  rw [hq]
  rfl

/-- Full characterization of the daemon-mode trial loop under a spawnable
executable: it finishes normally, appends `elapsed * 1000` for exactly the
successful invocations (in invocation order) to the daemon sample list, logs
one tagged query per iteration, and touches nothing else. -/
theorem daemonTrials_spec (n : Nat) (s : S) (h : NoSpawn s.env) :
    (daemonTrials n s).1 = Except.ok () ∧
    ((daemonTrials n s).2).wall_clock_daemon =
      s.wall_clock_daemon ++ successSamples ((s.env.drop s.k).take n) ∧
    ((daemonTrials n s).2).env = s.env ∧
    ((daemonTrials n s).2).iterations = s.iterations ∧
    ((daemonTrials n s).2).queryLog =
      s.queryLog ++ List.replicate n ("ls -la", "daemon") ∧
    ((daemonTrials n s).2).wall_clock_direct = s.wall_clock_direct ∧
    ((daemonTrials n s).2).artifacts = s.artifacts := by
  induction n generalizing s with
  | zero => simp [daemonTrials, successSamples]
  | succ n ih =>
    cases ho : s.env.getD s.k defaultOutcome with
    | spawnFailure => exact absurd ho (getD_ne_spawn s h)
    | timedOut e =>
      have hq := run_query_timedOut "ls -la" "daemon" s e ho
      rw [daemonTrials_step_false n s _ e hq]
      have hIH := ih { s with k := s.k + 1,
                              trace := s.trace ++ [[aka, "query", "ls -la"]],
                              queryLog := s.queryLog ++ [("ls -la", "daemon")] }
        (by exact h)
      refine ⟨hIH.1, ?_, hIH.2.2.1, hIH.2.2.2.1, ?_,
        hIH.2.2.2.2.2.1, hIH.2.2.2.2.2.2⟩
      · rw [hIH.2.1, successSamples_window s.env s.k n, ho]
        simp [successSamples]
      · rw [hIH.2.2.2.2.1]
        simp [List.replicate_succ]
    | completed rc out err e =>
      have hq := run_query_completed "ls -la" "daemon" s rc out err e ho
      cases hrc : (rc == 0) with
      | true =>
        rw [hrc] at hq
        have hrc2 : rc = 0 := by simpa using hrc
        rw [daemonTrials_step_true n s _ e hq]
        have hIH := ih { s with k := s.k + 1,
                                trace := s.trace ++ [[aka, "query", "ls -la"]],
                                queryLog := s.queryLog ++ [("ls -la", "daemon")],
                                wall_clock_daemon := s.wall_clock_daemon ++ [e * 1000] }
          (by exact h)
        refine ⟨hIH.1, ?_, hIH.2.2.1, hIH.2.2.2.1, ?_,
          hIH.2.2.2.2.2.1, hIH.2.2.2.2.2.2⟩
        · rw [hIH.2.1, successSamples_window s.env s.k n, ho]
          simp [successSamples, hrc2]
        · rw [hIH.2.2.2.2.1]
          simp [List.replicate_succ]
      | false =>
        rw [hrc] at hq
        have hrc2 : ¬ rc = 0 := by simpa using hrc
        rw [daemonTrials_step_false n s _ e hq]
        have hIH := ih { s with k := s.k + 1,
                                trace := s.trace ++ [[aka, "query", "ls -la"]],
                                queryLog := s.queryLog ++ [("ls -la", "daemon")] }
          (by exact h)
        refine ⟨hIH.1, ?_, hIH.2.2.1, hIH.2.2.2.1, ?_,
          hIH.2.2.2.2.2.1, hIH.2.2.2.2.2.2⟩
        · rw [hIH.2.1, successSamples_window s.env s.k n, ho]
          simp [successSamples, hrc2]
        · rw [hIH.2.2.2.2.1]
          simp [List.replicate_succ]

/-- Unfolding one successful iteration of the direct trial loop. -/
theorem directTrials_step_true (n : Nat) (s s1 : S) (w : ℚ)
    (hq : run_query "ls -la" "direct" s = (Except.ok (true, w), s1)) :
    directTrials (n + 1) s = directTrials n
      { s1 with wall_clock_direct := s1.wall_clock_direct ++ [w * 1000] } := by
  show (match run_query "ls -la" "direct" s with
    | (.ok (succ, wall), s1) =>
      directTrials n (if succ then
        { s1 with wall_clock_direct := s1.wall_clock_direct ++ [wall * 1000] }
      else s1)
    | (.error e, s1) => (.error e, s1)) = _
  rw [hq]
  rfl

/-- Unfolding one failed iteration of the direct trial loop. -/
theorem directTrials_step_false (n : Nat) (s s1 : S) (w : ℚ)
    (hq : run_query "ls -la" "direct" s = (Except.ok (false, w), s1)) :
    directTrials (n + 1) s = directTrials n s1 := by
  show (match run_query "ls -la" "direct" s with
    | (.ok (succ, wall), s1) =>
      directTrials n (if succ then
        { s1 with wall_clock_direct := s1.wall_clock_direct ++ [wall * 1000] }
      else s1)
    | (.error e, s1) => (.error e, s1)) = _
  rw [hq]
  rfl

/-- Full characterization of the direct-mode trial loop under a spawnable
executable (mirror of the daemon loop on the direct sample list). -/
theorem directTrials_spec (n : Nat) (s : S) (h : NoSpawn s.env) :
    (directTrials n s).1 = Except.ok () ∧
    ((directTrials n s).2).wall_clock_direct =
      s.wall_clock_direct ++ successSamples ((s.env.drop s.k).take n) ∧
    ((directTrials n s).2).env = s.env ∧
    ((directTrials n s).2).iterations = s.iterations ∧
    ((directTrials n s).2).queryLog =
      s.queryLog ++ List.replicate n ("ls -la", "direct") ∧
    ((directTrials n s).2).wall_clock_daemon = s.wall_clock_daemon ∧
    ((directTrials n s).2).artifacts = s.artifacts := by
  induction n generalizing s with
  | zero => simp [directTrials, successSamples]
  | succ n ih =>
    cases ho : s.env.getD s.k defaultOutcome with
    | spawnFailure => exact absurd ho (getD_ne_spawn s h)
    | timedOut e =>
      have hq := run_query_timedOut "ls -la" "direct" s e ho
      rw [directTrials_step_false n s _ e hq]
      have hIH := ih { s with k := s.k + 1,
                              trace := s.trace ++ [[aka, "query", "ls -la"]],
                              queryLog := s.queryLog ++ [("ls -la", "direct")] }
        (by exact h)
      refine ⟨hIH.1, ?_, hIH.2.2.1, hIH.2.2.2.1, ?_,
        hIH.2.2.2.2.2.1, hIH.2.2.2.2.2.2⟩
      · rw [hIH.2.1, successSamples_window s.env s.k n, ho]
        simp [successSamples]
      · rw [hIH.2.2.2.2.1]
        simp [List.replicate_succ]
    | completed rc out err e =>
      have hq := run_query_completed "ls -la" "direct" s rc out err e ho
      cases hrc : (rc == 0) with
      | true =>
        rw [hrc] at hq
        have hrc2 : rc = 0 := by simpa using hrc
        rw [directTrials_step_true n s _ e hq]
        have hIH := ih { s with k := s.k + 1,
                                trace := s.trace ++ [[aka, "query", "ls -la"]],
                                queryLog := s.queryLog ++ [("ls -la", "direct")],
                                wall_clock_direct := s.wall_clock_direct ++ [e * 1000] }
          (by exact h)
        refine ⟨hIH.1, ?_, hIH.2.2.1, hIH.2.2.2.1, ?_,
          hIH.2.2.2.2.2.1, hIH.2.2.2.2.2.2⟩
        · rw [hIH.2.1, successSamples_window s.env s.k n, ho]
          simp [successSamples, hrc2]
        · rw [hIH.2.2.2.2.1]
          simp [List.replicate_succ]
      | false =>
        rw [hrc] at hq
        have hrc2 : ¬ rc = 0 := by simpa using hrc
        rw [directTrials_step_false n s _ e hq]
        have hIH := ih { s with k := s.k + 1,
                                trace := s.trace ++ [[aka, "query", "ls -la"]],
                                queryLog := s.queryLog ++ [("ls -la", "direct")] }
          (by exact h)
        refine ⟨hIH.1, ?_, hIH.2.2.1, hIH.2.2.2.1, ?_,
          hIH.2.2.2.2.2.1, hIH.2.2.2.2.2.2⟩
        · rw [hIH.2.1, successSamples_window s.env s.k n, ho]
          simp [successSamples, hrc2]
        · rw [hIH.2.2.2.2.1]
          simp [List.replicate_succ]

/-- A query invocation can only fail by propagating a spawn failure. -/
theorem run_query_error (q mode : String) (s : S) (e : Err)
    (h : (run_query q mode s).1 = Except.error e) : e = Err.spawnFailure := by
  unfold run_query at h
  cases hr : runCmdS [aka, "query", q]
      { s with queryLog := s.queryLog ++ [(q, mode)] } with
  | mk r s1 =>
    rw [hr] at h
    cases r with
    | error e2 =>
      have : (runCmdS [aka, "query", q]
          { s with queryLog := s.queryLog ++ [(q, mode)] }).1 = Except.error e2 := by
        rw [hr]
      have he2 := runCmdS_error _ _ _ this
      simp only [] at h
      injection h with h2
      rw [← h2]
      exact he2
    | ok r2 =>
      rcases r2 with ⟨succ, out, t⟩
      simp at h

/-- A status probe can only fail by propagating a spawn failure. -/
theorem is_daemon_running_error (s : S) (e : Err)
    (h : (is_daemon_running s).1 = Except.error e) : e = Err.spawnFailure := by
  unfold is_daemon_running at h
  cases hr : runCmdS [aka, "daemon", "--status"] s with
  | mk r s1 =>
    rw [hr] at h
    cases r with
    | error e2 =>
      have : (runCmdS [aka, "daemon", "--status"] s).1 = Except.error e2 := by rw [hr]
      have he2 := runCmdS_error _ _ _ this
      injection h with h2
      rw [← h2]
      exact he2
    | ok r2 =>
      rcases r2 with ⟨succ, out, t⟩
      simp at h

/-- A stop command can only fail by propagating a spawn failure. -/
theorem stop_daemon_error (s : S) (e : Err)
    (h : (stop_daemon s).1 = Except.error e) : e = Err.spawnFailure := by
  unfold stop_daemon at h
  cases hr : runCmdS [aka, "daemon", "--stop"] s with
  | mk r s1 =>
    rw [hr] at h
    cases r with
    | error e2 =>
      have : (runCmdS [aka, "daemon", "--stop"] s).1 = Except.error e2 := by rw [hr]
      have he2 := runCmdS_error _ _ _ this
      injection h with h2
      rw [← h2]
      exact he2
    | ok r2 =>
      rcases r2 with ⟨succ, out, t⟩
      simp at h

/-- A start command can only fail by propagating a spawn failure. -/
theorem start_daemon_error (s : S) (e : Err)
    (h : (start_daemon s).1 = Except.error e) : e = Err.spawnFailure := by
  unfold start_daemon at h
  cases hr : runCmdS [aka, "daemon", "--start"] s with
  | mk r s1 =>
    rw [hr] at h
    cases r with
    | error e2 =>
      have : (runCmdS [aka, "daemon", "--start"] s).1 = Except.error e2 := by rw [hr]
      have he2 := runCmdS_error _ _ _ this
      injection h with h2
      rw [← h2]
      exact he2
    | ok r2 =>
      rcases r2 with ⟨succ, out, t⟩
      simp at h

/-- The daemon trial loop can only fail by propagating a spawn failure. -/
theorem daemonTrials_error (n : Nat) (s : S) (e : Err)
    (h : (daemonTrials n s).1 = Except.error e) : e = Err.spawnFailure := by
  induction n generalizing s with
  | zero => simp [daemonTrials] at h
  | succ n ih =>
    rw [show daemonTrials (n + 1) s = (match run_query "ls -la" "daemon" s with
        | (.ok (succ, wall), s1) =>
          daemonTrials n (if succ then
            { s1 with wall_clock_daemon := s1.wall_clock_daemon ++ [wall * 1000] }
          else s1)
        | (.error e, s1) => (.error e, s1)) from rfl] at h
    cases hq : run_query "ls -la" "daemon" s with
    | mk r s1 =>
      rw [hq] at h
      cases r with
      | error e2 =>
        have : (run_query "ls -la" "daemon" s).1 = Except.error e2 := by rw [hq]
        have he2 := run_query_error _ _ _ _ this
        injection h with h2
        rw [← h2]
        exact he2
      | ok r2 =>
        rcases r2 with ⟨succ, wall⟩
        exact ih _ h

/-- The direct trial loop can only fail by propagating a spawn failure. -/
theorem directTrials_error (n : Nat) (s : S) (e : Err)
    (h : (directTrials n s).1 = Except.error e) : e = Err.spawnFailure := by
  induction n generalizing s with
  | zero => simp [directTrials] at h
  | succ n ih =>
    rw [show directTrials (n + 1) s = (match run_query "ls -la" "direct" s with
        | (.ok (succ, wall), s1) =>
          directTrials n (if succ then
            { s1 with wall_clock_direct := s1.wall_clock_direct ++ [wall * 1000] }
          else s1)
        | (.error e, s1) => (.error e, s1)) from rfl] at h
    cases hq : run_query "ls -la" "direct" s with
    | mk r s1 =>
      rw [hq] at h
      cases r with
      | error e2 =>
        have : (run_query "ls -la" "direct" s).1 = Except.error e2 := by rw [hq]
        have he2 := run_query_error _ _ _ _ this
        injection h with h2
        rw [← h2]
        exact he2
      | ok r2 =>
        rcases r2 with ⟨succ, wall⟩
        exact ih _ h

/-! ## Claim C1: which trials enter the result sequences -/

/-- C1 counterexample: two daemon-mode invocations, the first successful
(1 s), the second failing with exit status 1 (2 s).  The claim requires both
trials to be appended to the mode's result sequence; the code appends only
the successful one, so the sequence has length 1, not 2. -/
theorem C1_counterexample :
    ((daemonTrials 2 sC1).2).wall_clock_daemon = [1000] ∧
    ((daemonTrials 2 sC1).2).wall_clock_daemon.length ≠ 2 := by
  have h := daemonTrials_spec 2 sC1 (by decide)
  have hw : ((daemonTrials 2 sC1).2).wall_clock_daemon = [1000] := by
    rw [h.2.1]
    norm_num [sC1, initS, envC1, successSamples, List.filterMap_cons]
  exact ⟨hw, by rw [hw]; decide⟩

/-- C1 amended: in either mode, only the successful invocations contribute
to the mode's result sequence — each appends its wall-clock duration times
1000, in invocation order; failed and timed-out invocations are skipped
(and do not halt the loop), so the recorded samples, over which the
statistics are later computed, are exactly the successful ones. -/
theorem C1_amended (n : Nat) (s : S) (h : NoSpawn s.env) :
    (daemonTrials n s).1 = Except.ok () ∧
    ((daemonTrials n s).2).wall_clock_daemon =
      s.wall_clock_daemon ++ successSamples ((s.env.drop s.k).take n) ∧
    (directTrials n s).1 = Except.ok () ∧
    ((directTrials n s).2).wall_clock_direct =
      s.wall_clock_direct ++ successSamples ((s.env.drop s.k).take n) := by
  have hd := daemonTrials_spec n s h
  have hc := directTrials_spec n s h
  exact ⟨hd.1, hd.2.1, hc.1, hc.2.1⟩

/-- C1 amended, witness: on `envC1` (one success at 1 s, one failure) the
loop finishes normally and records exactly the sample `[1000]` ms. -/
theorem C1_amended_witness :
    (daemonTrials 2 sC1).1 = Except.ok () ∧
    ((daemonTrials 2 sC1).2).wall_clock_daemon = [1000] := by
  have h := C1_amended 2 sC1 (by decide)
  refine ⟨h.1, ?_⟩
  rw [h.2.1]
  norm_num [sC1, initS, envC1, successSamples, List.filterMap_cons]


/-- The post-loop stop block can only fail by propagating a spawn failure. -/
theorem tryStopOk_error (s2 : S) (e : Err)
    (h : (tryStopOk s2).1 = Except.error e) : e = Err.spawnFailure := by
  unfold tryStopOk at h
  cases hst : stop_daemon s2 with
  | mk r3 s3 =>
    rw [hst] at h
    cases r3 with
    | ok b => simp at h
    | error e3 =>
      have he3 := stop_daemon_error s2 e3 (by rw [hst])
      injection h with h4
      rw [← h4]
      exact he3

/-- The re-raising stop block surfaces either the original exception or a
spawn failure from the stop itself. -/
theorem tryStopReraise_error (e0 : Err) (s2 : S) (e : Err)
    (h : (tryStopReraise e0 s2).1 = Except.error e) :
    e = e0 ∨ e = Err.spawnFailure := by
  unfold tryStopReraise at h
  cases hst : stop_daemon s2 with
  | mk r3 s3 =>
    rw [hst] at h
    cases r3 with
    | ok b =>
      injection h with h4
      exact Or.inl h4.symm
    | error e3 =>
      have he3 := stop_daemon_error s2 e3 (by rw [hst])
      injection h with h4
      exact Or.inr (h4 ▸ he3)

/-- The whole daemon-mode `try/finally` block can only fail by propagating a
spawn failure. -/
theorem daemonTrialsThenStop_error (s1 : S) (e : Err)
    (h : (daemonTrialsThenStop s1).1 = Except.error e) : e = Err.spawnFailure := by
  cases hdt : daemonTrials s1.iterations s1 with
  | mk r2 s2 =>
    cases r2 with
    | ok u =>
      have heq : daemonTrialsThenStop s1 = tryStopOk s2 := by
        unfold daemonTrialsThenStop
        rw [hdt]
      rw [heq] at h
      exact tryStopOk_error s2 e h
    | error e2 =>
      have he2 := daemonTrials_error _ _ _ (show _ = Except.error e2 by rw [hdt])
      have heq : daemonTrialsThenStop s1 = tryStopReraise e2 s2 := by
        unfold daemonTrialsThenStop
        rw [hdt]
      rw [heq] at h
      rcases tryStopReraise_error e2 s2 e h with h5 | h5
      · rw [h5]; exact he2
      · exact h5

/-- Unfolding `benchmark_daemon_mode` on a successful start command. -/
theorem benchmark_daemon_start_true (s s1 : S)
    (hs : start_daemon s = (Except.ok true, s1)) :
    benchmark_daemon_mode s = daemonTrialsThenStop s1 := by
  unfold benchmark_daemon_mode
  rw [hs]

/-- Unfolding `benchmark_daemon_mode` on a failed start command. -/
theorem benchmark_daemon_start_false (s s1 : S)
    (hs : start_daemon s = (Except.ok false, s1)) :
    benchmark_daemon_mode s = (Except.error Err.daemonStartFailed, s1) := by
  unfold benchmark_daemon_mode
  rw [hs]

/-! ## Claim C4: start behaviour before daemon-mode measurement -/

/-- C4 counterexample: the start command reports success, but a status
probe performed right after it (as the claimed re-probe would be) reports
the daemon absent.  The claim requires a run-aborting error in exactly this
situation; `benchmark_daemon_mode` performs no re-probe and completes
without error, deciding solely on the start command's own exit status. -/
theorem C4_counterexample :
    (is_daemon_running (start_daemon sC4).2).1 = Except.ok false ∧
    (benchmark_daemon_mode sC4).1 = Except.ok () :=
  ⟨by decide, by decide⟩

/-- C4 amended: `_start_daemon` issues the start command unconditionally (no
status probe before it) and `benchmark_daemon_mode` raises the run-aborting
`RuntimeError` exactly when the start command itself reports failure
(non-zero exit or timeout); no status re-probe is involved.  (A spawn
failure propagates as a different exception.) -/
theorem C4_amended (s : S) :
    (benchmark_daemon_mode s).1 = Except.error Err.daemonStartFailed ↔
      ∃ out t, run_command (s.env.getD s.k defaultOutcome) =
        Except.ok (false, out, t) := by
  cases hoc : run_command (s.env.getD s.k defaultOutcome) with
  | error u =>
    have hs : start_daemon s = (Except.error Err.spawnFailure,
        { s with k := s.k + 1,
                 trace := s.trace ++ [[aka, "daemon", "--start"]] }) := by
      unfold start_daemon runCmdS
      rw [hoc]
    have hb : benchmark_daemon_mode s = (Except.error Err.spawnFailure,
        { s with k := s.k + 1,
                 trace := s.trace ++ [[aka, "daemon", "--start"]] }) := by
      unfold benchmark_daemon_mode
      rw [hs]
    constructor
    · intro hcon
      rw [hb] at hcon
      simp at hcon
    · rintro ⟨out, t, hcon⟩
      cases hcon
  | ok r =>
    rcases r with ⟨succ, out, t⟩
    have hs : start_daemon s = (Except.ok succ,
        { s with k := s.k + 1,
                 trace := s.trace ++ [[aka, "daemon", "--start"]] }) := by
      unfold start_daemon runCmdS
      rw [hoc]
    cases succ with
    | false =>
      have hb := benchmark_daemon_start_false s _ hs
      constructor
      · intro _
        exact ⟨out, t, rfl⟩
      · intro _
        rw [hb]
    | true =>
      have hb := benchmark_daemon_start_true s _ hs
      constructor
      · intro hcon
        rw [hb] at hcon
        have := daemonTrialsThenStop_error _ _ hcon
        cases this
      · rintro ⟨out2, t2, hcon⟩
        injection hcon with h2
        injection h2 with h3 h4
        cases h3

/-- The stop half of the summary `try/finally` under a spawnable executable:
it returns the fetched summary and only advances cursor and trace. -/
theorem summaryStop_ok (ts : TimingSummary) (s1 : S) (h : NoSpawn s1.env) :
    ∃ s2, summaryStop ts s1 = (Except.ok ts, s2) ∧ s2.env = s1.env ∧
      s2.queryLog = s1.queryLog ∧ s2.iterations = s1.iterations := by
  obtain ⟨b, hst⟩ := stop_daemon_ok s1 h
  refine ⟨{ s1 with
      k := s1.k + 1,
      trace := s1.trace ++ [[aka, "daemon", "--stop"]] }, ?_, rfl, rfl, rfl⟩
  unfold summaryStop
  rw [hst]

/-- Lemma: `summaryTryStop` under a spawnable executable: fetch, parse (or default
to the empty summary), stop. -/
theorem summaryTryStop_ok (s : S) (h : NoSpawn s.env) :
    ∃ ts s2, summaryTryStop s = (Except.ok ts, s2) ∧ s2.env = s.env ∧
      s2.queryLog = s.queryLog ∧ s2.iterations = s.iterations := by
  obtain ⟨r, hr⟩ := runCmdS_ok [aka, "daemon", "--timing-summary"] s h
  rcases r with ⟨succ, out, t⟩
  obtain ⟨s2, hss, henv, hql, hit⟩ := summaryStop_ok (timingSummaryResult succ out)
    { s with k := s.k + 1,
             trace := s.trace ++ [[aka, "daemon", "--timing-summary"]] } (by exact h)
  refine ⟨timingSummaryResult succ out, s2, ?_, henv, hql, hit⟩
  unfold summaryTryStop
  rw [hr]
  exact hss

/-- The start-then-fetch path of `_get_timing_summary` under a spawnable
executable. -/
theorem summaryAfterStart_ok (s : S) (h : NoSpawn s.env) :
    ∃ ts s2, summaryAfterStart s = (Except.ok ts, s2) ∧ s2.env = s.env ∧
      s2.queryLog = s.queryLog ∧ s2.iterations = s.iterations := by
  obtain ⟨b, hstart⟩ := start_daemon_ok s h
  obtain ⟨ts, s2, hss, henv, hql, hit⟩ := summaryTryStop_ok
    { s with k := s.k + 1,
             trace := s.trace ++ [[aka, "daemon", "--start"]] } (by exact h)
  refine ⟨ts, s2, ?_, henv, hql, hit⟩
  unfold summaryAfterStart
  rw [hstart]
  exact hss

/-- Lemma: `_get_timing_summary` never raises while the executable is spawnable,
and it does not touch the query log, the iteration count or the oracle. -/
theorem get_timing_summary_ok (s : S) (h : NoSpawn s.env) :
    ∃ ts s2, get_timing_summary s = (Except.ok ts, s2) ∧ s2.env = s.env ∧
      s2.queryLog = s.queryLog ∧ s2.iterations = s.iterations := by
  obtain ⟨b, hprobe⟩ := is_daemon_running_ok s h
  cases b with
  | true =>
    obtain ⟨ts, s2, hss, henv, hql, hit⟩ := summaryTryStop_ok
      { s with k := s.k + 1,
               trace := s.trace ++ [[aka, "daemon", "--status"]] } (by exact h)
    refine ⟨ts, s2, ?_, henv, hql, hit⟩
    unfold get_timing_summary
    rw [hprobe]
    exact hss
  | false =>
    obtain ⟨ts, s2, hss, henv, hql, hit⟩ := summaryAfterStart_ok
      { s with k := s.k + 1,
               trace := s.trace ++ [[aka, "daemon", "--status"]] } (by exact h)
    refine ⟨ts, s2, ?_, henv, hql, hit⟩
    unfold get_timing_summary
    rw [hprobe]
    exact hss

/-- Lemma: `_export_detailed_data` never raises while the executable is spawnable;
it appends exactly one artifact and preserves the rest. -/
theorem export_detailed_data_ok (s : S) (h : NoSpawn s.env) :
    ∃ s2, export_detailed_data s = (Except.ok (), s2) ∧ s2.env = s.env ∧
      s2.queryLog = s.queryLog ∧ s2.iterations = s.iterations := by
  obtain ⟨ts, s2, hts, henv, hql, hit⟩ := get_timing_summary_ok s h
  refine ⟨{ s2 with artifacts := s2.artifacts ++
      [⟨"benchmark_results.json", mkExportData s2 ts⟩] }, ?_, henv, hql, hit⟩
  unfold export_detailed_data
  rw [hts]

/-- The export-then-render tail of `generate_report` under a spawnable
executable. -/
theorem reportExport_ok (ts : TimingSummary) (s : S) (h : NoSpawn s.env) :
    ∃ r s2, reportExport ts s = (Except.ok r, s2) ∧ s2.env = s.env ∧
      s2.queryLog = s.queryLog ∧ s2.iterations = s.iterations := by
  obtain ⟨s2, hex, henv, hql, hit⟩ := export_detailed_data_ok s h
  refine ⟨mkReport s2.wall_clock_daemon s2.wall_clock_direct ts, s2, ?_,
    henv, hql, hit⟩
  unfold reportExport
  rw [hex]

/-- Lemma: `generate_report` never raises while the executable is spawnable, and
it preserves the query log and the iteration count. -/
theorem generate_report_ok (s : S) (h : NoSpawn s.env) :
    ∃ r s2, generate_report s = (Except.ok r, s2) ∧ s2.env = s.env ∧
      s2.queryLog = s.queryLog ∧ s2.iterations = s.iterations := by
  obtain ⟨ts, s1, hts, henv1, hql1, hit1⟩ := get_timing_summary_ok s h
  obtain ⟨r, s2, hre, henv2, hql2, hit2⟩ := reportExport_ok ts s1
    (by rw [henv1]; exact h)
  refine ⟨r, s2, ?_, by rw [henv2, henv1], by rw [hql2, hql1],
    by rw [hit2, hit1]⟩
  unfold generate_report
  rw [hts]
  exact hre

/-- The daemon-mode `try/finally` block under a spawnable executable:
the trials all run and the stop is issued; `iterations` many daemon-tagged
queries are appended to the log. -/
theorem daemonTrialsThenStop_ok (s1 : S) (h : NoSpawn s1.env) :
    ∃ s2, daemonTrialsThenStop s1 = (Except.ok (), s2) ∧ s2.env = s1.env ∧
      s2.queryLog = s1.queryLog ++
        List.replicate s1.iterations ("ls -la", "daemon") ∧
      s2.iterations = s1.iterations := by
  have hdt := daemonTrials_spec s1.iterations s1 h
  cases hdt2 : daemonTrials s1.iterations s1 with
  | mk r2 s2 =>
    rw [hdt2] at hdt
    obtain ⟨b, hst⟩ := stop_daemon_ok s2
      (by rw [show s2.env = s1.env from hdt.2.2.1]; exact h)
    refine ⟨{ s2 with
        k := s2.k + 1,
        trace := s2.trace ++ [[aka, "daemon", "--stop"]] }, ?_, ?_, ?_, ?_⟩
    · have heq : daemonTrialsThenStop s1 = tryStopOk s2 := by
        unfold daemonTrialsThenStop
        rw [hdt2, show r2 = Except.ok () from hdt.1]
      rw [heq]
      unfold tryStopOk
      rw [hst]
    · show s2.env = s1.env
      exact hdt.2.2.1
    · show s2.queryLog = _
      exact hdt.2.2.2.2.1
    · show s2.iterations = s1.iterations
      exact hdt.2.2.2.1

/-- Lemma: `benchmark_direct_mode` under a spawnable executable: whichever way the
probe reports, the trials all run and `iterations` many direct-tagged
queries are appended to the log. -/
theorem benchmark_direct_ok (s : S) (h : NoSpawn s.env) :
    ∃ s2, benchmark_direct_mode s = (Except.ok (), s2) ∧ s2.env = s.env ∧
      s2.queryLog = s.queryLog ++
        List.replicate s.iterations ("ls -la", "direct") ∧
      s2.iterations = s.iterations := by
  obtain ⟨b, hprobe⟩ := is_daemon_running_ok s h
  cases b with
  | false =>
    have hdt := directTrials_spec
      ({ s with k := s.k + 1,
                trace := s.trace ++ [[aka, "daemon", "--status"]] } : S).iterations
      { s with k := s.k + 1,
               trace := s.trace ++ [[aka, "daemon", "--status"]] } (by exact h)
    cases hdt2 : directTrials
        ({ s with k := s.k + 1,
                  trace := s.trace ++ [[aka, "daemon", "--status"]] } : S).iterations
        { s with k := s.k + 1,
                 trace := s.trace ++ [[aka, "daemon", "--status"]] } with
    | mk r2 s2 =>
      rw [hdt2] at hdt
      refine ⟨s2, ?_, hdt.2.2.1, hdt.2.2.2.2.1, hdt.2.2.2.1⟩
      have heq : benchmark_direct_mode s = directTrials
          ({ s with k := s.k + 1,
                    trace := s.trace ++ [[aka, "daemon", "--status"]] } : S).iterations
          { s with k := s.k + 1,
                   trace := s.trace ++ [[aka, "daemon", "--status"]] } := by
        unfold benchmark_direct_mode
        rw [hprobe]
      rw [heq, hdt2, show r2 = Except.ok () from hdt.1]
  | true =>
    obtain ⟨b2, hstop⟩ := stop_daemon_ok
      { s with k := s.k + 1,
               trace := s.trace ++ [[aka, "daemon", "--status"]] } (by exact h)
    have hdt := directTrials_spec
      ({ s with
          k := s.k + 1 + 1,
          trace := (s.trace ++ [[aka, "daemon", "--status"]]) ++
            [[aka, "daemon", "--stop"]] } : S).iterations
      { s with
        k := s.k + 1 + 1,
        trace := (s.trace ++ [[aka, "daemon", "--status"]]) ++
          [[aka, "daemon", "--stop"]] } (by exact h)
    cases hdt2 : directTrials
        ({ s with
            k := s.k + 1 + 1,
            trace := (s.trace ++ [[aka, "daemon", "--status"]]) ++
              [[aka, "daemon", "--stop"]] } : S).iterations
        { s with
          k := s.k + 1 + 1,
          trace := (s.trace ++ [[aka, "daemon", "--status"]]) ++
            [[aka, "daemon", "--stop"]] } with
    | mk r2 s2 =>
      rw [hdt2] at hdt
      refine ⟨s2, ?_, hdt.2.2.1, hdt.2.2.2.2.1, hdt.2.2.2.1⟩
      have heq : benchmark_direct_mode s = directAfterStop
          { s with k := s.k + 1,
                   trace := s.trace ++ [[aka, "daemon", "--status"]] } := by
        unfold benchmark_direct_mode
        rw [hprobe]
      rw [heq]
      unfold directAfterStop
      rw [hstop]
      show directTrials
          ({ s with
              k := s.k + 1 + 1,
              trace := (s.trace ++ [[aka, "daemon", "--status"]]) ++
                [[aka, "daemon", "--stop"]] } : S).iterations
          { s with
            k := s.k + 1 + 1,
            trace := (s.trace ++ [[aka, "daemon", "--status"]]) ++
              [[aka, "daemon", "--stop"]] } = (Except.ok (), s2)
      rw [hdt2, show r2 = Except.ok () from hdt.1]

/-- Lemma: `runPhases` on a spawnable executable with a successful daemon start:
the query log receives `iterations` daemon-tagged queries followed by
`iterations` direct-tagged queries, and nothing later alters it. -/
theorem runPhases_queryLog (s : S) (hns : NoSpawn s.env)
    (hok : (runPhases s).1.isOk = true) :
    ((runPhases s).2).queryLog = s.queryLog
      ++ List.replicate s.iterations ("ls -la", "daemon")
      ++ List.replicate s.iterations ("ls -la", "direct") := by
  obtain ⟨b, hstart⟩ := start_daemon_ok s hns
  cases b with
  | false =>
    have hb := benchmark_daemon_start_false s _ hstart
    have : runPhases s = (Except.error Err.daemonStartFailed,
        { s with k := s.k + 1,
                 trace := s.trace ++ [[aka, "daemon", "--start"]] }) := by
      unfold runPhases
      rw [hb]
    rw [this] at hok
    simp [Except.isOk, Except.toBool] at hok
  | true =>
    have hb := benchmark_daemon_start_true s _ hstart
    obtain ⟨s2, hdts, henv2, hql2, hit2⟩ := daemonTrialsThenStop_ok
      { s with k := s.k + 1,
               trace := s.trace ++ [[aka, "daemon", "--start"]] } (by exact hns)
    obtain ⟨s3, hdir, henv3, hql3, hit3⟩ := benchmark_direct_ok s2
      (by rw [henv2]; exact hns)
    obtain ⟨r, s4, hrep, henv4, hql4, hit4⟩ := generate_report_ok s3
      (by rw [henv3, henv2]; exact hns)
    have hrun : runPhases s = generate_report s3 := by
      unfold runPhases
      rw [hb, hdts]
      show runPhasesDirect s2 = generate_report s3
      unfold runPhasesDirect
      rw [hdir]
    rw [hrun, hrep]
    show s4.queryLog = _
    rw [hql4, hql3, hql2, show s2.iterations = s.iterations from hit2]

/-! ## Claim C5: order of the two measurement phases -/

/-- C5 counterexample: on a fully successful one-iteration run the query
log shows the daemon-tagged query first and the direct-tagged query second —
the reverse of the claimed direct-first order. -/
theorem C5_counterexample :
    ((runSuite sC5).2).queryLog =
      [("ls -la", "daemon"), ("ls -la", "direct")] ∧
    [("ls -la", "daemon"), ("ls -la", "direct")] ≠
      [("ls -la", "direct"), ("ls -la", "daemon")] :=
  ⟨by decide, by decide⟩

/-- C5 amended: in every run that keeps a spawnable executable and completes
successfully, the `iterations` daemon-mode trials are executed first (after
the daemon is started) and the `iterations` direct-mode trials afterwards
(after the daemon is stopped): the query log is exactly the daemon-tagged
block followed by the direct-tagged block. -/
theorem C5_amended (s : S) (hns : NoSpawn s.env)
    (hok : (runSuite s).1.isOk = true) :
    ((runSuite s).2).queryLog = s.queryLog
      ++ List.replicate s.iterations ("ls -la", "daemon")
      ++ List.replicate s.iterations ("ls -la", "direct") := by
  obtain ⟨b, hprobe⟩ := is_daemon_running_ok s hns
  cases b with
  | false =>
    have hrs : runSuite s = runPhases
        { s with k := s.k + 1,
                 trace := s.trace ++ [[aka, "daemon", "--status"]] } := by
      unfold runSuite
      rw [hprobe]
    rw [hrs] at hok ⊢
    exact runPhases_queryLog _ (by exact hns) hok
  | true =>
    obtain ⟨b2, hstop⟩ := stop_daemon_ok
      { s with k := s.k + 1,
               trace := s.trace ++ [[aka, "daemon", "--status"]] } (by exact hns)
    have hrs : runSuite s = runPhases
        { s with
          k := s.k + 1 + 1,
          trace := (s.trace ++ [[aka, "daemon", "--status"]]) ++
            [[aka, "daemon", "--stop"]] } := by
      unfold runSuite
      rw [hprobe]
      show runSuiteStop
          { s with k := s.k + 1,
                   trace := s.trace ++ [[aka, "daemon", "--status"]] } = _
      unfold runSuiteStop
      rw [hstop]
    rw [hrs] at hok ⊢
    exact runPhases_queryLog _ (by exact hns) hok

/-- C5 amended, witness: on the concrete fully successful one-iteration run
`sC5` the query log is the daemon query followed by the direct query. -/
theorem C5_amended_witness :
    ((runSuite sC5).2).queryLog = sC5.queryLog
      ++ List.replicate sC5.iterations ("ls -la", "daemon")
      ++ List.replicate sC5.iterations ("ls -la", "direct") :=
  C5_amended sC5 (by decide) (by decide)

/-! ## Claim C7: failing diagnostics command does not affect the report -/

/-- C7: when the `daemon --timing-summary` command exits non-zero,
`_get_timing_summary` returns the empty summary, so the report omits the
internal-timing section entirely while the wall-clock half is still the one
computed from the collected samples; and as long as the executable stays
spawnable, `generate_report` (including the diagnostics fetches and export
inside it) completes without raising. -/
theorem C7_diagnostics (s : S) (out : String) (d c : List ℚ)
    (h : NoSpawn s.env) :
    (generate_report s).1.isOk = true ∧
    (mkReport d c (timingSummaryResult false out)).internal = none ∧
    (mkReport d c (timingSummaryResult false out)).wall = wallReport d c := by
  obtain ⟨r, s2, hrep, henv, hql, hit⟩ := generate_report_ok s h
  refine ⟨by rw [hrep]; rfl, ?_, rfl⟩
  show internalReport (timingSummaryResult false out) = none
  unfold timingSummaryResult internalReport
  simp

/-- C7 witness: with an exhausted oracle (every command fails benignly,
including the diagnostics command) the report generation still succeeds and
a failed summary command yields a report without the internal section. -/
theorem C7_diagnostics_witness :
    (generate_report sC7).1.isOk = true ∧
    (mkReport [3] [4] (timingSummaryResult false "x")).internal = none :=
  ⟨(C7_diagnostics sC7 "x" [3] [4] (by decide)).1,
   (C7_diagnostics sC7 "x" [3] [4] (by decide)).2.1⟩

/-! ## Claim C9: artifacts produced at the end of a run -/

/-- C9 counterexample: on a concrete diagnostics round the export step
writes exactly one artifact, the JSON file with the fixed (untimestamped)
name `benchmark_results.json`, whose record holds only the configuration,
the raw trial lists and the parsed summary — no CSV file and no computed
statistics exist among the artifacts, contradicting the claim. -/
theorem C9_counterexample :
    (export_detailed_data sC9).1 = Except.ok () ∧
    ((export_detailed_data sC9).2).artifacts =
      [⟨"benchmark_results.json",
        { iterations := 3, timestamp := 0, aka_binary := "aka",
          daemon := [], direct := [], wall_clock_daemon := [],
          wall_clock_direct := [], summary := emptySummary }⟩] ∧
    strEndsWith "benchmark_results.json" ".csv" = false :=
  ⟨by decide, by decide, by decide⟩

/-- C9 amended: whenever the fresh diagnostics fetch succeeds,
`_export_detailed_data` appends exactly one artifact — a JSON file with the
fixed name `benchmark_results.json` containing the run configuration
(iterations, `time.time()` reading, binary path), the raw trial duration
lists (with the never-populated `daemon`/`direct` keys empty) and the parsed
diagnostics summary; no CSV artifact and no derived statistics are
exported. -/
theorem C9_amended (s : S) (ts : TimingSummary) (s1 : S)
    (h : get_timing_summary s = (Except.ok ts, s1)) :
    export_detailed_data s = (Except.ok (),
      { s1 with artifacts := s1.artifacts ++
          [⟨"benchmark_results.json", mkExportData s1 ts⟩] }) := by
  unfold export_detailed_data
  rw [h]

/-- C9 amended, witness: the concrete diagnostics round `sC9` exports the
single JSON artifact built from the empty summary. -/
theorem C9_amended_witness :
    export_detailed_data sC9 = (Except.ok (),
      { s1C9 with artifacts := s1C9.artifacts ++
          [⟨"benchmark_results.json", mkExportData s1C9 emptySummary⟩] }) :=
  C9_amended sC9 emptySummary s1C9 (by decide)
